import Mathlib

/-!
Verification of the mojo-x402 payment page (`frontend/ai_pay/page.tsx`).

The development shallowly embeds the page's payment core: the amount codec
`amountToSmallestUnit`, the `resolveDecimals` fallback, the Solana transfer
executor `sendSolanaTransfer` (with its token-account resolution and balance
preconditions, modelled over an explicit ledger state and an event trace),
the X-PAYMENT proof encoder (`btoa(JSON.stringify(...))`), and the
chat-driven session handlers `handleSelectNetwork` / `handleSelectAmount`
together with the option-button dispatch.

JavaScript values are embedded as follows: strings as `String` (and, inside
the codec, as `List Char`, the same character data), bigints and ledger
amounts as `Nat`, numbers that can be `undefined`/`null`/`NaN` as the
inductive `JsNumber`, and fallible operations (`BigInt(...)`, `btoa`) as
`Option`-returning functions where `none` models a thrown exception.
-/

/-! ## Configuration constants (lines 18-21 of the source) -/

def SOLANA_USDC_MINT : String := "UCSsmd2A8Ub8J2mE68pXKSSJLJmMTJyPfuT4h7YwpQA"

def SOLANA_DECIMALS : Int := 6

/- `TOKEN_PROGRAM_ID` imported from `@solana/spl-token`; its base58 form. -/
def TOKEN_PROGRAM_ID : String := "TokenkegQfeZyiNwAJbNbGKPFXCWuBvf9Ss623VQ5DA"

/-! ## Amount codec (`amountToSmallestUnit`, lines 23-30) -/

/- `value.split('.')` of JavaScript: split a character list at every '.',
   keeping empty segments; `"".split('.')` is `[""]`. -/
def splitDot : List Char → List (List Char)
  | [] => [[]]
  | c :: rest =>
    if c = '.' then [] :: splitDot rest
    else
      match splitDot rest with
      | [] => [[c]]
      | h :: t => (c :: h) :: t

/- Decimal value of a digit string, as folded by `BigInt` on an all-digit
   input. -/
def digitsVal (l : List Char) : Nat :=
  l.foldl (fun n c => 10 * n + (c.toNat - 48)) 0

/- `BigInt(s)`: succeeds on all-digit strings (including `""`, which JS maps
   to `0n`); `none` models the `SyntaxError` thrown on other inputs.  (JS also
   accepts signs, whitespace and radix literals, but the codec only ever
   passes digit strings, so those forms are modelled as failing.) -/
def jsBigIntChars (l : List Char) : Option Nat :=
  if l.all Char.isDigit then some (digitsVal l) else none

/- Lines 23-30: split on '.', strip non-digits from the integer and
   fractional parts (`replace(/\D/g, '')`), default the integer part to "0"
   (`|| '0'`), right-pad the fraction with zeros and truncate it to
   `decimals` digits (`(cleanFraction + '0'.repeat(decimals)).slice(0,
   decimals)`), concatenate, and parse with `BigInt(combined || '0')`. -/
def amountToSmallestUnit (value : String) (decimals : Nat) : Option Nat :=
  let parts := splitDot value.data
  let integerPart := parts.getD 0 []
  let fractionalPart := parts.getD 1 []
  let cleanInteger :=
    if integerPart.filter Char.isDigit = [] then ['0']
    else integerPart.filter Char.isDigit
  let cleanFraction := fractionalPart.filter Char.isDigit
  let paddedFraction := (cleanFraction ++ List.replicate decimals '0').take decimals
  let combined := cleanInteger ++ paddedFraction
  jsBigIntChars (if combined = [] then ['0'] else combined)

/- The value `amountToSmallestUnit` always succeeds with (see
   `amountToSmallestUnit_eq_some`). -/
def minorUnits (value : String) (decimals : Nat) : Nat :=
  (amountToSmallestUnit value decimals).getD 0

/-! ## `resolveDecimals` (lines 57-65) -/

/- A JavaScript `number | null | undefined` value. -/
inductive JsNumber where
  | undef : JsNumber
  | nullv : JsNumber
  | nan : JsNumber
  | val : Int → JsNumber
deriving DecidableEq

/- Lines 57-65: `undefined`/`null` → fallback; `NaN` or `≤ 0` → fallback;
   otherwise the given value. -/
def resolveDecimals (decimals : JsNumber) (fallback : Int) : Int :=
  match decimals with
  | .undef => fallback
  | .nullv => fallback
  | .nan => fallback
  | .val x => if x ≤ 0 then fallback else x

/-! ## Ledger model and transfer executor (`sendSolanaTransfer`, lines 396-504) -/

/- The slice of `AccountInfo` the page reads: the owner program. -/
structure AccountInfo where
  owner : String
deriving DecidableEq

/- The slice of `getTokenAccountBalance`'s `value` the page reads.  The RPC's
   decimal `amount` string is modelled directly by its numeric value. -/
structure TokenAmount where
  amount : Nat
  uiAmountString : String
deriving DecidableEq

/- The ledger-query capability consumed by the executor: `ata` models the
   deterministic `getAssociatedTokenAddress` derivation, the rest model the
   RPC lookups made through the `Connection`.  `parsedMint` is the
   `parsed.info.mint` field of `getParsedAccountInfo` (absent links modelled
   by `none`); `signature` is what `sendTransaction` returns. -/
structure Ledger where
  ata : String → String → String
  accountInfo : String → Option AccountInfo
  parsedMint : String → Option String
  tokenBalance : String → Option TokenAmount
  nativeBalance : Nat
  signature : String

inductive Instruction where
  | createAssociatedTokenAccount (payer ataAddr owner mint : String)
  | transfer (source destination owner : String) (amount : Nat)
deriving DecidableEq

/- The ledger interactions of one `sendSolanaTransfer` run, in order. -/
inductive Event where
  | getAccountInfo (addr : String)
  | getParsedAccountInfo (addr : String)
  | getAssociatedTokenAddress (mint owner : String)
  | getTokenAccountBalance (addr : String)
  | getBalance (addr : String)
  | getLatestBlockhash
  | sendTransaction (instructions : List Instruction)
  | confirmTransaction (sig : String)
deriving DecidableEq

/- The errors `sendSolanaTransfer` can throw.  `amountParseFailure` models a
   `BigInt` throw (provably unreachable, see `amountToSmallestUnit_eq_some`);
   `insufficientBalance` carries the interpolated values of its message. -/
inductive TransferError where
  | senderAccountMissing
  | directMintMismatch
  | ataOwnerMismatch
  | ataMintMismatch
  | amountParseFailure
  | insufficientBalance (actual requested : String)
  | insufficientFee
deriving DecidableEq

/- The user-facing message thrown with each error (lines 414, 425, 436, 442,
   452-454, 460 of the source). -/
def TransferError.message : TransferError → String
  | .senderAccountMissing => "发送方缺少 USDC 关联账户，请先创建并充值 USDC"
  | .directMintMismatch => "收款 Token 账户的 Mint 与 USDC 不匹配"
  | .ataOwnerMismatch => "关联 Token 账户的 Owner 非 SPL Token Program"
  | .ataMintMismatch => "关联 Token 账户的 Mint 与 USDC 不匹配"
  | .amountParseFailure => "Cannot convert to a BigInt"
  | .insufficientBalance actual requested =>
      "USDC 余额不足：当前 " ++ actual ++ "，需要 " ++ requested
  | .insufficientFee => "SOL 余额不足，请在 Devnet 领取一些 SOL 以支付手续费"

def TransferError.isMintMismatch : TransferError → Bool
  | .directMintMismatch => true
  | .ataMintMismatch => true
  | _ => false

structure Receipt where
  signature : String
  instructions : List Instruction
deriving DecidableEq

instance {ε α : Type} [DecidableEq ε] [DecidableEq α] : DecidableEq (Except ε α) := fun a b =>
  match a, b with
  | Except.error e, Except.error f =>
    if h : e = f then isTrue (congrArg Except.error h)
    else isFalse (fun hh => h (Except.error.inj hh))
  | Except.error _, Except.ok _ => isFalse (fun hh => Except.noConfusion hh)
  | Except.ok _, Except.error _ => isFalse (fun hh => Except.noConfusion hh)
  | Except.ok x, Except.ok y =>
    if h : x = y then isTrue (congrArg Except.ok h)
    else isFalse (fun hh => h (Except.ok.inj hh))

/- Lines 428-444: the associated-token-account branch taken when the
   recipient address is not itself a token-program-owned account.  Derive the
   recipient's ATA; if it does not exist, schedule its creation; if it exists
   with a wrong owner program, fail; otherwise check its parsed mint against
   the USDC mint (the JS guard `ataMint && ataMint !== SOLANA_USDC_MINT`: a
   string is truthy iff non-empty). -/
def resolveViaAta (L : Ledger) (payerPk toAddress : String) :
    List Event × Except TransferError (String × List Instruction) :=
  let ataAddr := L.ata SOLANA_USDC_MINT toAddress
  let ev := [Event.getAssociatedTokenAddress SOLANA_USDC_MINT toAddress,
             Event.getAccountInfo ataAddr]
  match L.accountInfo ataAddr with
  | none =>
    (ev, Except.ok (ataAddr,
      [Instruction.createAssociatedTokenAccount payerPk ataAddr toAddress SOLANA_USDC_MINT]))
  | some ataInfo =>
    if ataInfo.owner ≠ TOKEN_PROGRAM_ID then (ev, Except.error TransferError.ataOwnerMismatch)
    else
      let ev2 := ev ++ [Event.getParsedAccountInfo ataAddr]
      match L.parsedMint ataAddr with
      | some m =>
        if m ≠ "" ∧ m ≠ SOLANA_USDC_MINT then (ev2, Except.error TransferError.ataMintMismatch)
        else (ev2, Except.ok (ataAddr, []))
      | none => (ev2, Except.ok (ataAddr, []))

/- Lines 407-445: destination resolution.  Derive the sender's ATA and fail
   if it does not exist; query the recipient address directly, and if a
   token-program-owned account lives there use it as the destination (after
   the mint check of lines 421-425); otherwise fall back to the recipient's
   associated token account. -/
def resolveDest (L : Ledger) (payerPk toAddress : String) :
    List Event × Except TransferError (String × List Instruction) :=
  let fromTokenAccount := L.ata SOLANA_USDC_MINT payerPk
  let ev0 := [Event.getAssociatedTokenAddress SOLANA_USDC_MINT payerPk,
              Event.getAccountInfo fromTokenAccount]
  match L.accountInfo fromTokenAccount with
  | none => (ev0, Except.error TransferError.senderAccountMissing)
  | some _ =>
    let ev1 := ev0 ++ [Event.getAccountInfo toAddress]
    match L.accountInfo toAddress with
    | some directInfo =>
      if directInfo.owner = TOKEN_PROGRAM_ID then
        let ev2 := ev1 ++ [Event.getParsedAccountInfo toAddress]
        match L.parsedMint toAddress with
        | some m =>
          if m ≠ "" ∧ m ≠ SOLANA_USDC_MINT then
            (ev2, Except.error TransferError.directMintMismatch)
          else (ev2, Except.ok (toAddress, []))
        | none => (ev2, Except.ok (toAddress, []))
      else
        let r := resolveViaAta L payerPk toAddress
        (ev1 ++ r.1, r.2)
    | none =>
      let r := resolveViaAta L payerPk toAddress
      (ev1 ++ r.1, r.2)

/- Lines 396-504: resolve the destination, encode the amount, enforce the
   token-balance precondition (error interpolates `uiAmountString || '0'` and
   the requested human amount), enforce the 0.01-SOL fee reserve, then build
   the transaction (optional ATA creation followed by exactly one transfer
   instruction) and submit it. -/
def sendSolanaTransfer (L : Ledger) (payerPk toAddress amount : String)
    (decimals : Nat) : List Event × Except TransferError Receipt :=
  let fromTokenAccount := L.ata SOLANA_USDC_MINT payerPk
  let rd := resolveDest L payerPk toAddress
  match rd.2 with
  | Except.error e => (rd.1, Except.error e)
  | Except.ok (dest, preInstructions) =>
    match amountToSmallestUnit amount decimals with
    | none => (rd.1, Except.error TransferError.amountParseFailure)
    | some amountInSmallestUnit =>
      let ev2 := rd.1 ++ [Event.getTokenAccountBalance fromTokenAccount]
      let bal := L.tokenBalance fromTokenAccount
      let payerUsdcLamports := (bal.map TokenAmount.amount).getD 0
      if payerUsdcLamports < amountInSmallestUnit then
        (ev2, Except.error (TransferError.insufficientBalance
          ((bal.map TokenAmount.uiAmountString).getD "0") amount))
      else
        let ev3 := ev2 ++ [Event.getBalance payerPk]
        if L.nativeBalance < 10000000 then
          (ev3, Except.error TransferError.insufficientFee)
        else
          let instrs := preInstructions ++
            [Instruction.transfer fromTokenAccount dest payerPk amountInSmallestUnit]
          (ev3 ++ [Event.getLatestBlockhash, Event.sendTransaction instrs,
                   Event.confirmTransaction L.signature],
           Except.ok { signature := L.signature, instructions := instrs })


/-! ## Concrete ledger instances used by witnesses and counterexamples -/

/- A ledger on which the executor reaches the balance/fee checks: the
   sender's USDC associated account exists, the recipient has no account (so
   the resolver derives the recipient ATA and schedules its creation), the
   sender holds 1000000 minor units, and the native balance is a parameter. -/
def sampleLedger (native : Nat) : Ledger where
  ata := fun m o => "ata:" ++ m ++ ":" ++ o
  accountInfo := fun a =>
    if a = "ata:" ++ SOLANA_USDC_MINT ++ ":payer" then some { owner := TOKEN_PROGRAM_ID }
    else none
  parsedMint := fun _ => none
  tokenBalance := fun _ => some { amount := 1000000, uiAmountString := "1" }
  nativeBalance := native
  signature := "sig"

/- A ledger where the recipient address is itself a token-program-owned
   account whose parsed mint is the USDC mint. -/
def directLedger : Ledger where
  ata := fun m o => "ata:" ++ m ++ ":" ++ o
  accountInfo := fun a =>
    if a = "ata:" ++ SOLANA_USDC_MINT ++ ":payer" then some { owner := TOKEN_PROGRAM_ID }
    else if a = "rcpt" then some { owner := TOKEN_PROGRAM_ID }
    else none
  parsedMint := fun a => if a = "rcpt" then some SOLANA_USDC_MINT else none
  tokenBalance := fun _ => some { amount := 1000000, uiAmountString := "1" }
  nativeBalance := 20000000
  signature := "sig"

/- Like `directLedger`, but the recipient token account's parsed mint is a
   different mint. -/
def directMismatchLedger : Ledger :=
  { directLedger with parsedMint := fun a => if a = "rcpt" then some "OtherMint1111" else none }

/- The recipient has no direct account; its derived ATA exists, is owned by
   the token program, but has a different parsed mint. -/
def ataMismatchLedger : Ledger where
  ata := fun m o => "ata:" ++ m ++ ":" ++ o
  accountInfo := fun a =>
    if a = "ata:" ++ SOLANA_USDC_MINT ++ ":payer" then some { owner := TOKEN_PROGRAM_ID }
    else if a = "ata:" ++ SOLANA_USDC_MINT ++ ":rcpt" then some { owner := TOKEN_PROGRAM_ID }
    else none
  parsedMint := fun a =>
    if a = "ata:" ++ SOLANA_USDC_MINT ++ ":rcpt" then some "OtherMint1111" else none
  tokenBalance := fun _ => some { amount := 1000000, uiAmountString := "1" }
  nativeBalance := 20000000
  signature := "sig"


/-! ## X-PAYMENT proof encoder (`btoa(JSON.stringify(xPaymentData))`, lines 541-548) -/

/- The X-PAYMENT envelope object built at lines 541-547: `x402Version` is the
   literal 1 there; `amount` is the already-stringified minor-unit amount. -/
structure XPaymentData where
  x402Version : Nat
  scheme : String
  network : String
  orderId : String
  amount : String
  txHash : String
deriving DecidableEq

def hexDigit (n : Nat) : Char := "0123456789abcdef".data.getD n '0'

/- The per-character escaping performed by `JSON.stringify` on string values:
   quote and backslash get two-character escapes, the named control
   characters get \b \t \n \f \r, the remaining control characters get a
   \u00xx escape, and every other character (ASCII or not) is emitted
   verbatim. -/
def jsonEscapeChar (c : Char) : List Char :=
  if c = '"' then ['\\', '"']
  else if c = '\\' then ['\\', '\\']
  else if c.toNat = 8 then ['\\', 'b']
  else if c.toNat = 9 then ['\\', 't']
  else if c.toNat = 10 then ['\\', 'n']
  else if c.toNat = 12 then ['\\', 'f']
  else if c.toNat = 13 then ['\\', 'r']
  else if c.toNat < 32 then ['\\', 'u', '0', '0', hexDigit (c.toNat / 16), hexDigit (c.toNat % 16)]
  else [c]

def jsonQuote (l : List Char) : List Char :=
  '"' :: (l.map jsonEscapeChar).join ++ ['"']

/- `JSON.stringify(xPaymentData)`: keys in insertion order, no whitespace,
   the numeric `x402Version` rendered in decimal. -/
def xPaymentJsonChars (xp : XPaymentData) : List Char :=
  ("\x7b\"x402Version\":" ++ Nat.repr xp.x402Version ++ ",\"scheme\":").data
  ++ jsonQuote xp.scheme.data
  ++ (",\"network\":").data
  ++ jsonQuote xp.network.data
  ++ (",\"orderId\":").data
  ++ jsonQuote xp.orderId.data
  ++ (",\"payload\":\x7b\"amount\":").data
  ++ jsonQuote xp.amount.data
  ++ (",\"txHash\":").data
  ++ jsonQuote xp.txHash.data
  ++ ("\x7d\x7d").data

def base64Alphabet : List Char :=
  "ABCDEFGHIJKLMNOPQRSTUVWXYZabcdefghijklmnopqrstuvwxyz0123456789+/".data

def b64 (n : Nat) : Char := base64Alphabet.getD n 'A'

def base64Encode : List Nat → List Char
  | [] => []
  | [a] => [b64 (a / 4), b64 (a % 4 * 16), '=', '=']
  | [a, b] => [b64 (a / 4), b64 (a % 4 * 16 + b / 16), b64 (b % 16 * 4), '=']
  | a :: b :: c :: rest =>
    b64 (a / 4) :: b64 (a % 4 * 16 + b / 16) :: b64 (b % 16 * 4 + c / 64) :: b64 (c % 64) ::
      base64Encode rest

/- `btoa`: base64 of one byte per UTF-16 code unit; throws (modelled `none`)
   if any code point exceeds 255. -/
def btoaChars (l : List Char) : Option (List Char) :=
  if l.all (fun c => c.toNat < 256) then some (base64Encode (l.map Char.toNat)) else none

def encodeXPayment (xp : XPaymentData) : Option String :=
  (btoaChars (xPaymentJsonChars xp)).map String.mk

/- The UTF-8 encoding of a character, for comparison with the spec's
   "base64 of the UTF-8 JSON". -/
def utf8Char (c : Char) : List Nat :=
  let n := c.toNat
  if n < 128 then [n]
  else if n < 2048 then [192 + n / 64, 128 + n % 64]
  else if n < 65536 then [224 + n / 4096, 128 + n / 64 % 64, 128 + n % 64]
  else [240 + n / 262144, 128 + n / 4096 % 64, 128 + n / 64 % 64, 128 + n % 64]

def utf8Bytes (l : List Char) : List Nat := (l.map utf8Char).join

/-! ## Session machine (`handleSelectNetwork` / `handleSelectAmount` /
`confirmPayment` and the option-button dispatch, lines 295-394, 507-634,
795-811) -/

/- The page's `Step` union type (lines 93-101). -/
inductive Step where
  | start
  | pending_payment_info
  | select_network
  | select_amount
  | pending_transfer
  | pending_confirm
  | success
  | failed
deriving DecidableEq

/- The `PaymentAccept` interface (lines 67-78). -/
structure PaymentAccept where
  scheme : String
  network : String
  asset : String
  symbol : String
  decimals : JsNumber
  payTo : String
  resource : String
  description : String
  nonce : String
  expires : Nat
deriving DecidableEq

/- The page's session state: the `useState` cells that drive the payment
   flow (lines 107-123; the chat transcript and wallet-display cells are
   rendering-only and omitted). -/
structure Session where
  step : Step
  paymentOptions : List PaymentAccept
  selectedPaymentOption : Option PaymentAccept
  orderId : String
  selectedAmount : String
  selectedToken : String
  selectedNetwork : String
  actualTransferAmount : String
  txHash : String
  resourceid : String
deriving DecidableEq

/- JavaScript `a || b` on strings: a string is falsy iff empty. -/
def jsOr (a b : String) : String := if a = "" then b else a

/- `trim` of JS `Number` coercion (whitespace stripping). -/
def jsTrim (l : List Char) : List Char :=
  ((l.dropWhile Char.isWhitespace).reverse.dropWhile Char.isWhitespace).reverse

/- `paymentOptions[Number(s)]` together with the `Number.isNaN` guard
   (lines 298-299): `Number('')` (or whitespace-only) is 0; an all-digit
   string is its decimal value; a `digits.digits` form is an integral index
   only when the fraction is all zeros (otherwise the element access yields
   `undefined`); other strings are NaN (exotic numeric forms — signs,
   exponents, radix prefixes — are not produced by this page and are
   modelled as NaN).  `none` covers both the NaN guard and the
   `!paymentOptions[parsedIndex]` undefined-element guard. -/
def jsArrayGet {α : Type} (l : List α) (s : String) : Option α :=
  let t := jsTrim s.data
  if t = [] then l.get? 0
  else if t.all Char.isDigit then l.get? (digitsVal t)
  else
    match splitDot t with
    | [ip, fp] =>
      if ip ≠ [] ∧ ip.all Char.isDigit ∧ fp.all (fun c => c = '0') then l.get? (digitsVal ip)
      else none
    | _ => none

/- Lines 295-330: `handleSelectNetwork`.  No step guard of its own; empty
   option list, NaN index, and out-of-range index are all early returns.
   The chat-message appends are rendering-only and omitted. -/
def handleSelectNetwork (s : Session) (optionIndex : String) : Session :=
  if s.paymentOptions.isEmpty then s
  else
    match jsArrayGet s.paymentOptions optionIndex with
    | none => s
    | some option =>
      { s with
        selectedPaymentOption := some option,
        selectedNetwork := jsOr option.network "Solana Devnet",
        selectedToken := "USDC",
        step := Step.select_amount }

/- The gateway's confirmation response as read by lines 564-565: `code`
   collapses `res.code || res.status || res.data?.code`, and `message`
   collapses `res.message || res.data?.message || ''`. -/
structure GatewayResp where
  code : Option Nat
  message : String
deriving DecidableEq

/- `hay.includes(needle)`. -/
def strIncludes (needle hay : String) : Bool :=
  hay.data.tails.any (fun t => needle.data.isPrefixOf t)

/- The observable outcome of one amount-selection event: the next session
   state, the receipt of the submitted transfer (if any), and the X-PAYMENT
   data whose encoding was sent to the gateway (if the confirm call was
   reached). -/
structure AmountStepResult where
  session : Session
  transfer : Option Receipt
  xpayment : Option XPaymentData
deriving DecidableEq

/- Lines 507-634: `confirmPayment`.  React semantics: the handler closure
   reads the state cells through the render snapshot `snap` (the values
   captured when the click was dispatched), while its `setState` calls apply
   to the current state `cur`; both throw paths and the gateway-rejection
   path end with `setStep('failed')` (the throws at lines 509/514 are caught
   by `handleSelectAmount`'s catch, the inner ones by the catch at line 620).
   `decimalsOverride ?? resolveDecimals(option.decimals, 6)` is a JS number
   used as a repetition count, hence the `toNat`. -/
def confirmPayment (snap cur : Session) (txHash0 : String)
    (paymentOption : Option PaymentAccept) (decimalsOverride : Option Int)
    (g : GatewayResp) : Session × Option XPaymentData :=
  if snap.resourceid = "" ∨ snap.orderId = "" then
    ({ cur with step := Step.failed }, none)
  else
    match (match paymentOption with
           | some o => some o
           | none => snap.selectedPaymentOption) with
    | none => ({ cur with step := Step.failed }, none)
    | some option =>
      let amountToUse := jsOr snap.actualTransferAmount snap.selectedAmount
      let decimalsToUse := (decimalsOverride.getD (resolveDecimals option.decimals 6)).toNat
      match amountToSmallestUnit amountToUse decimalsToUse with
      | none => ({ cur with step := Step.failed }, none)
      | some amt =>
        let xp : XPaymentData :=
          { x402Version := 1,
            scheme := jsOr option.scheme "exact",
            network := jsOr option.network (jsOr snap.selectedNetwork "Solana"),
            orderId := snap.orderId,
            amount := Nat.repr amt,
            txHash := txHash0 }
        match encodeXPayment xp with
        | none => ({ cur with step := Step.failed }, none)
        | some _ =>
          if g.message = "Waiting for Payment" ∨ strIncludes "Waiting" g.message then
            ({ cur with step := Step.success }, some xp)
          else if g.code = some 200 ∨ ((g.code = none ∨ g.code = some 0) ∧ g.message = "") then
            ({ cur with step := Step.success }, some xp)
          else ({ cur with step := Step.failed }, some xp)

/- Lines 333-394: `handleSelectAmount`.  Guard, optimistic state writes, the
   transfer, then `confirmPayment(hash, selectedPaymentOption, decimals)`.
   React semantics again: `confirmPayment` reads through the snapshot `s`
   (so `actualTransferAmount`/`selectedAmount` are their pre-click values),
   while the writes land on the already-updated state `s2`. -/
def handleSelectAmount (L : Ledger) (g : GatewayResp) (payerPk : String)
    (s : Session) (amount : String) : AmountStepResult :=
  match s.selectedPaymentOption with
  | none => { session := s, transfer := none, xpayment := none }
  | some option =>
    if s.selectedToken = "" then { session := s, transfer := none, xpayment := none }
    else
      let s1 := { s with selectedAmount := amount, actualTransferAmount := amount,
                         step := Step.pending_transfer }
      let decimals := resolveDecimals option.decimals SOLANA_DECIMALS
      match (sendSolanaTransfer L payerPk option.payTo amount decimals.toNat).2 with
      | Except.error _ =>
        { session := { s1 with step := Step.failed }, transfer := none, xpayment := none }
      | Except.ok receipt =>
        let s2 := { s1 with txHash := receipt.signature, step := Step.pending_confirm }
        let r := confirmPayment s s2 receipt.signature (some option) (some decimals) g
        { session := r.1, transfer := some receipt, xpayment := r.2 }

/- Lines 795-811: the option-button dispatch.  Buttons are disabled unless
   the step is `select_network` or `select_amount`; an enabled click goes to
   `handleSelectNetwork` when the step is `select_network` and to
   `handleSelectAmount` otherwise. -/
def clickOption (L : Ledger) (g : GatewayResp) (payerPk : String)
    (s : Session) (v : String) : AmountStepResult :=
  if s.step = Step.select_network then
    { session := handleSelectNetwork s v, transfer := none, xpayment := none }
  else if s.step = Step.select_amount then
    handleSelectAmount L g payerPk s v
  else { session := s, transfer := none, xpayment := none }

/-! ## Concrete sessions and envelopes used by witnesses and counterexamples -/

def optC1 : PaymentAccept :=
  { scheme := "exact", network := "devnet", asset := "USDC", symbol := "USDC",
    decimals := JsNumber.val 6, payTo := "rcpt", resource := "res-1",
    description := "", nonce := "n", expires := 0 }

/- The session right after the user picked the only Solana option, as the
   render that shows the amount buttons sees it: both amount cells still
   hold their initial empty strings. -/
def sessionC1 : Session :=
  { step := Step.select_amount, paymentOptions := [optC1],
    selectedPaymentOption := some optC1, orderId := "order-1",
    selectedAmount := "", selectedToken := "USDC",
    selectedNetwork := "Solana Devnet", actualTransferAmount := "",
    txHash := "", resourceid := "res-1" }

def gatewayOk : GatewayResp := { code := some 200, message := "" }

def optC8b : PaymentAccept := { optC1 with nonce := "n2" }

def sessionC8 : Session := { sessionC1 with paymentOptions := [optC1, optC8b] }

def xpAscii : XPaymentData :=
  { x402Version := 1, scheme := "exact", network := "devnet",
    orderId := "order-1", amount := "200000", txHash := "sig" }

def xpLatin : XPaymentData :=
  { x402Version := 1, scheme := "exact", network := "devnet",
    orderId := "é-order", amount := "1", txHash := "t" }


/-! ## Theorems -/

/-! ## Totality of the codec -/

theorem digitsVal_zeros : ∀ d : Nat, digitsVal (List.replicate d '0') = 0 := by
  intro d
  induction d with
  | zero => rfl
  | succ n ih =>
    simp only [List.replicate_succ, digitsVal, List.foldl_cons]
    simpa [digitsVal] using ih

theorem splitDot_mem_subset {l : List Char} {part : List Char}
    (hp : part ∈ splitDot l) {c : Char} (hc : c ∈ part) : c ∈ l := by
  induction l generalizing part with
  | nil =>
    simp [splitDot] at hp
    subst hp
    simp at hc
  | cons a rest ih =>
    by_cases ha : a = '.'
    · simp [splitDot, ha] at hp
      rcases hp with hp | hp
      · subst hp; simp at hc
      · exact List.mem_cons_of_mem _ (ih hp hc)
    · simp only [splitDot, if_neg ha] at hp
      rcases hsp : splitDot rest with - | ⟨h, t⟩
      · rw [hsp] at hp
        simp at hp
        subst hp
        simp at hc
        simp [hc]
      · rw [hsp] at hp
        rcases List.mem_cons.mp hp with hp | hp
        · subst hp
          rcases List.mem_cons.mp hc with hc | hc
          · simp [hc]
          · exact List.mem_cons_of_mem _ (ih (hsp ▸ List.mem_cons_self h t) hc)
        · exact List.mem_cons_of_mem _ (ih (hsp ▸ List.mem_cons_of_mem h hp) hc)

theorem amountToSmallestUnit_isSome (value : String) (decimals : Nat) :
    ∃ n, amountToSmallestUnit value decimals = some n := by
  unfold amountToSmallestUnit jsBigIntChars
  set parts := splitDot value.data with hparts
  set ip := (parts.getD 0 []).filter Char.isDigit with hip
  set fr := (parts.getD 1 []).filter Char.isDigit with hfr
  have hdig : ∀ c ∈ (if ip = [] then ['0'] else ip) ++
      ((fr ++ List.replicate decimals '0').take decimals), c.isDigit = true := by
    intro c hc
    rcases List.mem_append.mp hc with hc | hc
    · by_cases h : ip = []
      · rw [if_pos h] at hc
        simp at hc
        simp [hc]
      · rw [if_neg h] at hc
        exact (List.mem_filter.mp hc).2
    · have hc' := List.take_subset _ _ hc
      rcases List.mem_append.mp hc' with hc' | hc'
      · exact (List.mem_filter.mp hc').2
      · have := List.eq_of_mem_replicate hc'
        simp [this]

  by_cases hemp : (if ip = [] then ['0'] else ip) ++
      ((fr ++ List.replicate decimals '0').take decimals) = []
  · refine ⟨0, ?_⟩
    simp only [← hip, ← hfr, hemp, if_pos rfl]
    simp [digitsVal]
  · refine ⟨digitsVal ((if ip = [] then ['0'] else ip) ++
      ((fr ++ List.replicate decimals '0').take decimals)), ?_⟩
    simp only [← hip, ← hfr, if_neg hemp]
    rw [if_pos (List.all_eq_true.mpr hdig)]

theorem amountToSmallestUnit_eq_some (value : String) (decimals : Nat) :
    amountToSmallestUnit value decimals = some (minorUnits value decimals) := by
  obtain ⟨n, hn⟩ := amountToSmallestUnit_isSome value decimals
  rw [minorUnits, hn]
  rfl

/-- Claim C5: the amount codec satisfies the spec's concrete test vectors:
`toMinorUnits("0.1", 6) = 100000`, `toMinorUnits("0.1234567", 6) = 123456`
(excess fractional digits truncated, not rounded), `toMinorUnits("", 6) = 0`,
and `toMinorUnits("abc.def", 2) = 0`. -/
theorem c5_codec_vectors :
    amountToSmallestUnit "0.1" 6 = some 100000 ∧
    amountToSmallestUnit "0.1234567" 6 = some 123456 ∧
    amountToSmallestUnit "" 6 = some 0 ∧
    amountToSmallestUnit "abc.def" 2 = some 0 := by
  decide

/-- Claim C7: `amountToSmallestUnit` is total — for every input string and
every non-negative decimals value it returns a value (never the
exception-modelling `none`), and input containing no digit characters at all
degrades to `0` rather than erroring. -/
theorem c7_codec_total (value : String) (decimals : Nat) :
    (∃ n, amountToSmallestUnit value decimals = some n) ∧
    (value.data.all (fun c => !c.isDigit) →
      amountToSmallestUnit value decimals = some 0) := by
  constructor
  · exact amountToSmallestUnit_isSome value decimals
  · intro hnd
    have hnodig : ∀ part ∈ splitDot value.data, part.filter Char.isDigit = [] := by
      intro part hp
      rw [List.filter_eq_nil_iff]
      intro c hc
      have := List.all_eq_true.mp hnd c (splitDot_mem_subset hp hc)
      simpa using this
    unfold amountToSmallestUnit
    have h0 : ((splitDot value.data).getD 0 []).filter Char.isDigit = [] := by
      rcases hsp : splitDot value.data with - | ⟨h, t⟩
      · simp
      · exact hnodig h (hsp ▸ List.mem_cons_self h t)
    have h1 : ((splitDot value.data).getD 1 []).filter Char.isDigit = [] := by
      rcases hsp : splitDot value.data with - | ⟨h, t⟩
      · simp
      · rcases t with - | ⟨h2, t2⟩
        · simp
        · exact hnodig h2 (hsp ▸ List.mem_cons_of_mem h (List.mem_cons_self h2 t2))
    simp only [h0, h1, if_pos rfl, List.nil_append]
    have htake : (List.replicate decimals '0').take decimals = List.replicate decimals '0' := by
      simp
    rw [htake]
    have hne : ('0' :: List.replicate decimals '0' : List Char) ≠ [] := by simp
    rw [if_neg (by simpa using hne)]
    unfold jsBigIntChars
    rw [if_pos]
    · have hz : digitsVal ('0' :: List.replicate decimals '0') = 0 := by
        have := digitsVal_zeros (decimals + 1)
        simpa [List.replicate_succ] using this
      simp [hz]
    · rw [List.all_eq_true]
      intro c hc
      rcases List.mem_cons.mp hc with hc | hc
      · simp [hc]
      · simp [List.eq_of_mem_replicate hc]

/-- Claim C7 witness: instantiating the totality theorem at the digit-free
input `"x.y"` with 2 decimals yields the value 0. -/
theorem c7_codec_total_witness : amountToSmallestUnit "x.y" 2 = some 0 :=
  (c7_codec_total "x.y" 2).2 (by decide)

/-- Claim C10: `resolveDecimals d f` returns the fallback `f` whenever `d` is
undefined, null, NaN, or `d ≤ 0`, and returns `d` otherwise; in particular a
payment option declaring `decimals = 0` resolves to the default fallback
precision 6, not to 0. -/
theorem c10_resolve_decimals (d : JsNumber) (f : Int) :
    ((d = JsNumber.undef ∨ d = JsNumber.nullv ∨ d = JsNumber.nan ∨
        (∃ x, d = JsNumber.val x ∧ x ≤ 0)) → resolveDecimals d f = f) ∧
    (∀ x : Int, d = JsNumber.val x → 0 < x → resolveDecimals d f = x) ∧
    resolveDecimals (JsNumber.val 0) 6 = 6 := by
  refine ⟨?_, ?_, by decide⟩
  · rintro (rfl | rfl | rfl | ⟨x, rfl, hx⟩) <;>
      simp [resolveDecimals, *]
  · rintro x rfl hx
    simp [resolveDecimals, not_le.mpr hx, hx.not_le]

/-- Claim C10 witness: the theorem instantiated at `decimals = 0` with
fallback 6 (yielding 6) and at `decimals = 9` (yielding 9). -/
theorem c10_resolve_decimals_witness :
    resolveDecimals (JsNumber.val 0) 6 = 6 ∧
    resolveDecimals (JsNumber.val 9) 6 = 9 :=
  ⟨(c10_resolve_decimals (JsNumber.val 0) 6).1 (Or.inr (Or.inr (Or.inr ⟨0, rfl, le_refl 0⟩))),
   (c10_resolve_decimals (JsNumber.val 9) 6).2.1 9 rfl (by decide)⟩

theorem resolveViaAta_no_submit (L : Ledger) (payerPk toAddress : String) :
    ∀ i, Event.sendTransaction i ∉ (resolveViaAta L payerPk toAddress).1 := by
  intro i
  unfold resolveViaAta
  rcases hA : L.accountInfo (L.ata SOLANA_USDC_MINT toAddress) with - | ai
  · simp [hA]
  · by_cases how : ai.owner ≠ TOKEN_PROGRAM_ID
    · simp [hA, how]
    · rcases hM : L.parsedMint (L.ata SOLANA_USDC_MINT toAddress) with - | m
      · simp [hA, hM, how]
      · by_cases hm : m ≠ "" ∧ m ≠ SOLANA_USDC_MINT
        · simp [hA, hM, how, hm]
        · simp [hA, hM, how, hm]

theorem resolveDest_no_submit (L : Ledger) (payerPk toAddress : String) :
    ∀ i, Event.sendTransaction i ∉ (resolveDest L payerPk toAddress).1 := by
  intro i
  unfold resolveDest
  rcases hF : L.accountInfo (L.ata SOLANA_USDC_MINT payerPk) with - | fi
  · simp [hF]
  · rcases hD : L.accountInfo toAddress with - | di
    · simp only [hF, hD]
      simpa using resolveViaAta_no_submit L payerPk toAddress i
    · by_cases how : di.owner = TOKEN_PROGRAM_ID
      · rcases hM : L.parsedMint toAddress with - | m
        · simp [hF, hD, hM, how]
        · by_cases hm : m ≠ "" ∧ m ≠ SOLANA_USDC_MINT
          · simp [hF, hD, hM, how, hm]
          · simp [hF, hD, hM, how, hm]
      · simp only [hF, hD, if_neg how]
        simpa using resolveViaAta_no_submit L payerPk toAddress i

/-! ## Executor case equations -/

theorem sendSolanaTransfer_resolveError_case (L : Ledger)
    (payerPk toAddress amount : String) (decimals : Nat) (e : TransferError)
    (hres : (resolveDest L payerPk toAddress).2 = Except.error e) :
    sendSolanaTransfer L payerPk toAddress amount decimals =
      ((resolveDest L payerPk toAddress).1, Except.error e) := by
  simp only [sendSolanaTransfer, hres]

theorem sendSolanaTransfer_balance_case (L : Ledger)
    (payerPk toAddress amount : String) (decimals : Nat)
    (dest : String) (pre : List Instruction)
    (hres : (resolveDest L payerPk toAddress).2 = Except.ok (dest, pre))
    (hlt : ((L.tokenBalance (L.ata SOLANA_USDC_MINT payerPk)).map TokenAmount.amount).getD 0 <
      minorUnits amount decimals) :
    sendSolanaTransfer L payerPk toAddress amount decimals =
      ((resolveDest L payerPk toAddress).1 ++
        [Event.getTokenAccountBalance (L.ata SOLANA_USDC_MINT payerPk)],
       Except.error (TransferError.insufficientBalance
        (((L.tokenBalance (L.ata SOLANA_USDC_MINT payerPk)).map TokenAmount.uiAmountString).getD "0")
        amount)) := by
  simp only [sendSolanaTransfer, hres, amountToSmallestUnit_eq_some]
  rw [if_pos hlt]

theorem sendSolanaTransfer_fee_case (L : Ledger)
    (payerPk toAddress amount : String) (decimals : Nat)
    (dest : String) (pre : List Instruction)
    (hres : (resolveDest L payerPk toAddress).2 = Except.ok (dest, pre))
    (hge : minorUnits amount decimals ≤
      ((L.tokenBalance (L.ata SOLANA_USDC_MINT payerPk)).map TokenAmount.amount).getD 0)
    (hfee : L.nativeBalance < 10000000) :
    sendSolanaTransfer L payerPk toAddress amount decimals =
      ((resolveDest L payerPk toAddress).1 ++
        [Event.getTokenAccountBalance (L.ata SOLANA_USDC_MINT payerPk)] ++
        [Event.getBalance payerPk],
       Except.error TransferError.insufficientFee) := by
  simp only [sendSolanaTransfer, hres, amountToSmallestUnit_eq_some]
  rw [if_neg (not_lt.mpr hge), if_pos hfee]

theorem sendSolanaTransfer_ok_case (L : Ledger)
    (payerPk toAddress amount : String) (decimals : Nat)
    (dest : String) (pre : List Instruction)
    (hres : (resolveDest L payerPk toAddress).2 = Except.ok (dest, pre))
    (hge : minorUnits amount decimals ≤
      ((L.tokenBalance (L.ata SOLANA_USDC_MINT payerPk)).map TokenAmount.amount).getD 0)
    (hfee : ¬ L.nativeBalance < 10000000) :
    sendSolanaTransfer L payerPk toAddress amount decimals =
      ((resolveDest L payerPk toAddress).1 ++
        [Event.getTokenAccountBalance (L.ata SOLANA_USDC_MINT payerPk)] ++
        [Event.getBalance payerPk] ++
        [Event.getLatestBlockhash,
         Event.sendTransaction (pre ++
           [Instruction.transfer (L.ata SOLANA_USDC_MINT payerPk) dest payerPk
             (minorUnits amount decimals)]),
         Event.confirmTransaction L.signature],
       Except.ok { signature := L.signature,
                   instructions := pre ++
                     [Instruction.transfer (L.ata SOLANA_USDC_MINT payerPk) dest payerPk
                       (minorUnits amount decimals)] }) := by
  simp only [sendSolanaTransfer, hres, amountToSmallestUnit_eq_some]
  rw [if_neg (not_lt.mpr hge), if_neg hfee]

theorem sendSolanaTransfer_error_no_submit (L : Ledger)
    (payerPk toAddress amount : String) (decimals : Nat) :
    ∀ e, (sendSolanaTransfer L payerPk toAddress amount decimals).2 = Except.error e →
    ∀ i, Event.sendTransaction i ∉ (sendSolanaTransfer L payerPk toAddress amount decimals).1 := by
  intro e he i
  rcases hres : (resolveDest L payerPk toAddress).2 with e' | ⟨dest, pre⟩
  · rw [sendSolanaTransfer_resolveError_case L payerPk toAddress amount decimals e' hres]
    exact resolveDest_no_submit L payerPk toAddress i
  · by_cases hlt : ((L.tokenBalance (L.ata SOLANA_USDC_MINT payerPk)).map
        TokenAmount.amount).getD 0 < minorUnits amount decimals
    · rw [sendSolanaTransfer_balance_case L payerPk toAddress amount decimals dest pre hres hlt]
      intro h
      rcases List.mem_append.mp h with h | h
      · exact resolveDest_no_submit L payerPk toAddress i h
      · simp at h
    · by_cases hfee : L.nativeBalance < 10000000
      · rw [sendSolanaTransfer_fee_case L payerPk toAddress amount decimals dest pre hres
          (not_lt.mp hlt) hfee]
        intro h
        rcases List.mem_append.mp h with h | h
        · rcases List.mem_append.mp h with h | h
          · exact resolveDest_no_submit L payerPk toAddress i h
          · simp at h
        · simp at h
      · rw [sendSolanaTransfer_ok_case L payerPk toAddress amount decimals dest pre hres
          (not_lt.mp hlt) hfee] at he
        simp at he

/-- Claim C2: before any submission, `sendSolanaTransfer` checks (in order)
that the sender's token balance covers the requested minor-unit amount (else
the insufficient-balance error) and then that the native balance covers the
fixed 0.01 SOL (10000000 lamports) fee reserve (else the insufficient-fee
error); on any error no transaction is ever submitted (`sendTransaction` is
never reached). -/
theorem c2_preconditions (L : Ledger) (payerPk toAddress amount : String) (decimals : Nat) :
    (∀ dest pre, (resolveDest L payerPk toAddress).2 = Except.ok (dest, pre) →
      ((((L.tokenBalance (L.ata SOLANA_USDC_MINT payerPk)).map TokenAmount.amount).getD 0 <
          minorUnits amount decimals →
        (sendSolanaTransfer L payerPk toAddress amount decimals).2 =
          Except.error (TransferError.insufficientBalance
            (((L.tokenBalance (L.ata SOLANA_USDC_MINT payerPk)).map
                TokenAmount.uiAmountString).getD "0") amount)) ∧
       (minorUnits amount decimals ≤
          ((L.tokenBalance (L.ata SOLANA_USDC_MINT payerPk)).map TokenAmount.amount).getD 0 →
        L.nativeBalance < 10000000 →
        (sendSolanaTransfer L payerPk toAddress amount decimals).2 =
          Except.error TransferError.insufficientFee))) ∧
    (∀ e, (sendSolanaTransfer L payerPk toAddress amount decimals).2 = Except.error e →
      ∀ i, Event.sendTransaction i ∉ (sendSolanaTransfer L payerPk toAddress amount decimals).1) := by
  constructor
  · intro dest pre hres
    constructor
    · intro hlt
      rw [sendSolanaTransfer_balance_case L payerPk toAddress amount decimals dest pre hres hlt]
    · intro hge hfee
      rw [sendSolanaTransfer_fee_case L payerPk toAddress amount decimals dest pre hres hge hfee]
  · exact sendSolanaTransfer_error_no_submit L payerPk toAddress amount decimals

/-- Claim C2 witness: on `sampleLedger 0` (native balance zero, ample token
balance) the executor fails with the insufficient-fee error. -/
theorem c2_preconditions_witness :
    (sendSolanaTransfer (sampleLedger 0) "payer" "rcpt" "0.2" 6).2 =
      Except.error TransferError.insufficientFee :=
  ((c2_preconditions (sampleLedger 0) "payer" "rcpt" "0.2" 6).1
    ("ata:" ++ SOLANA_USDC_MINT ++ ":rcpt")
    [Instruction.createAssociatedTokenAccount "payer" ("ata:" ++ SOLANA_USDC_MINT ++ ":rcpt")
      "rcpt" SOLANA_USDC_MINT]
    (by decide)).2 (by decide) (by decide)

/-- Claim C3: whenever an account exists at the recipient address and is
owned by the token program, the resolver uses the recipient address itself as
the destination (with no creation instruction) and never derives an
associated token account for the recipient — the only ATA derivation in the
trace is the sender's own. -/
theorem c3_direct_priority (L : Ledger) (payerPk toAddress : String)
    (hsender : ∃ fi, L.accountInfo (L.ata SOLANA_USDC_MINT payerPk) = some fi)
    (hdirect : ∃ di, L.accountInfo toAddress = some di ∧ di.owner = TOKEN_PROGRAM_ID) :
    (∀ dest pre, (resolveDest L payerPk toAddress).2 = Except.ok (dest, pre) →
      dest = toAddress ∧ pre = []) ∧
    (∀ m o, Event.getAssociatedTokenAddress m o ∈ (resolveDest L payerPk toAddress).1 →
      o = payerPk) := by
  obtain ⟨fi, hF⟩ := hsender
  obtain ⟨di, hD, how⟩ := hdirect
  have htr : (resolveDest L payerPk toAddress).1 =
      [Event.getAssociatedTokenAddress SOLANA_USDC_MINT payerPk,
       Event.getAccountInfo (L.ata SOLANA_USDC_MINT payerPk),
       Event.getAccountInfo toAddress,
       Event.getParsedAccountInfo toAddress] ∧
      ((resolveDest L payerPk toAddress).2 = Except.error TransferError.directMintMismatch ∨
       (resolveDest L payerPk toAddress).2 = Except.ok (toAddress, [])) := by
    simp only [resolveDest, hF, hD, if_pos how]
    rcases hM : L.parsedMint toAddress with - | m
    · simp
    · by_cases hm : m ≠ "" ∧ m ≠ SOLANA_USDC_MINT
      · simp [hm]
      · simp [hm]
  constructor
  · intro dest pre h
    rcases htr.2 with h2 | h2
    · rw [h2] at h
      exact absurd h (by simp)
    · rw [h2] at h
      obtain ⟨rfl, rfl⟩ := Prod.mk.inj (Except.ok.inj h)
      exact ⟨rfl, rfl⟩
  · intro m o hmem
    rw [htr.1] at hmem
    simp only [List.mem_cons, List.not_mem_nil, or_false] at hmem
    rcases hmem with h | h | h | h
    · exact (Event.getAssociatedTokenAddress.inj h).2
    · exact absurd h (by simp)
    · exact absurd h (by simp)
    · exact absurd h (by simp)

/-- Claim C3 witness: on `directLedger` (recipient is a token-program-owned
account with the USDC mint) resolution yields the recipient itself with no
creation instruction. -/
theorem c3_direct_priority_witness :
    ("rcpt" : String) = "rcpt" ∧ ([] : List Instruction) = [] :=
  (c3_direct_priority directLedger "payer" "rcpt"
    ⟨{ owner := TOKEN_PROGRAM_ID }, by decide⟩
    ⟨{ owner := TOKEN_PROGRAM_ID }, by decide, rfl⟩).1 "rcpt" [] (by decide)

/-- Claim C4: for a mint value `m` (non-empty, hence JS-truthy) different
from the USDC mint, resolution fails with a MintMismatch error in both
account-ownership combinations: when the recipient address itself is a
token-program-owned account whose parsed mint is `m` (direct addressing),
and when the recipient is not directly addressable but its derived
associated token account exists, is token-program-owned, and has parsed
mint `m`. -/
theorem c4_mint_mismatch (L : Ledger) (payerPk toAddress m : String)
    (hsender : ∃ fi, L.accountInfo (L.ata SOLANA_USDC_MINT payerPk) = some fi)
    (hm1 : m ≠ "") (hm2 : m ≠ SOLANA_USDC_MINT) :
    ((∃ di, L.accountInfo toAddress = some di ∧ di.owner = TOKEN_PROGRAM_ID) →
      L.parsedMint toAddress = some m →
      (resolveDest L payerPk toAddress).2 = Except.error TransferError.directMintMismatch ∧
      TransferError.directMintMismatch.isMintMismatch = true) ∧
    ((∀ di, L.accountInfo toAddress = some di → di.owner ≠ TOKEN_PROGRAM_ID) →
     (∃ ai, L.accountInfo (L.ata SOLANA_USDC_MINT toAddress) = some ai ∧
       ai.owner = TOKEN_PROGRAM_ID) →
     L.parsedMint (L.ata SOLANA_USDC_MINT toAddress) = some m →
     (resolveDest L payerPk toAddress).2 = Except.error TransferError.ataMintMismatch ∧
     TransferError.ataMintMismatch.isMintMismatch = true) := by
  obtain ⟨fi, hF⟩ := hsender
  constructor
  · rintro ⟨di, hD, how⟩ hM
    refine ⟨?_, rfl⟩
    simp only [resolveDest, hF, hD, if_pos how, hM]
    rw [if_pos ⟨hm1, hm2⟩]
  · rintro hNoDirect ⟨ai, hA, hOw⟩ hM
    refine ⟨?_, rfl⟩
    rcases hD : L.accountInfo toAddress with - | di
    · simp only [resolveDest, hF, hD]
      simp only [resolveViaAta, hA, hM]
      rw [if_neg (by simp [hOw]), if_pos ⟨hm1, hm2⟩]
    · have hnd := hNoDirect di hD
      simp only [resolveDest, hF, hD, if_neg hnd]
      simp only [resolveViaAta, hA, hM]
      rw [if_neg (by simp [hOw]), if_pos ⟨hm1, hm2⟩]

/-- Claim C4 witness: the direct-addressing mismatch on
`directMismatchLedger` and the associated-account mismatch on
`ataMismatchLedger`, both at mint "OtherMint1111". -/
theorem c4_mint_mismatch_witness :
    (resolveDest directMismatchLedger "payer" "rcpt").2 =
      Except.error TransferError.directMintMismatch ∧
    (resolveDest ataMismatchLedger "payer" "rcpt").2 =
      Except.error TransferError.ataMintMismatch :=
  ⟨((c4_mint_mismatch directMismatchLedger "payer" "rcpt" "OtherMint1111"
      ⟨{ owner := TOKEN_PROGRAM_ID }, by decide⟩ (by decide) (by decide)).1
      ⟨{ owner := TOKEN_PROGRAM_ID }, by decide, rfl⟩ (by decide)).1,
   ((c4_mint_mismatch ataMismatchLedger "payer" "rcpt" "OtherMint1111"
      ⟨{ owner := TOKEN_PROGRAM_ID }, by decide⟩ (by decide) (by decide)).2
      (by
        intro di h
        rw [(by decide : ataMismatchLedger.accountInfo "rcpt" = (none : Option AccountInfo))] at h
        exact Option.noConfusion h)
      ⟨{ owner := TOKEN_PROGRAM_ID }, by decide, rfl⟩ (by decide)).1⟩

/-- Claim C9 (amended): the insufficient-balance error carries both the
actual balance (the account's `uiAmountString`) and the requested amount in
its payload and message; the insufficient-fee error, however, is a fixed
message that carries neither amount. -/
theorem c9_error_payloads (L : Ledger) (payerPk toAddress amount : String) (decimals : Nat) :
    (∀ dest pre, (resolveDest L payerPk toAddress).2 = Except.ok (dest, pre) →
      ((L.tokenBalance (L.ata SOLANA_USDC_MINT payerPk)).map TokenAmount.amount).getD 0 <
        minorUnits amount decimals →
      (sendSolanaTransfer L payerPk toAddress amount decimals).2 =
        Except.error (TransferError.insufficientBalance
          (((L.tokenBalance (L.ata SOLANA_USDC_MINT payerPk)).map
              TokenAmount.uiAmountString).getD "0") amount) ∧
      (TransferError.insufficientBalance
          (((L.tokenBalance (L.ata SOLANA_USDC_MINT payerPk)).map
              TokenAmount.uiAmountString).getD "0") amount).message =
        "USDC 余额不足：当前 " ++
          ((L.tokenBalance (L.ata SOLANA_USDC_MINT payerPk)).map
              TokenAmount.uiAmountString).getD "0" ++ "，需要 " ++ amount) ∧
    TransferError.insufficientFee.message =
      "SOL 余额不足，请在 Devnet 领取一些 SOL 以支付手续费" := by
  refine ⟨?_, rfl⟩
  intro dest pre hres hlt
  refine ⟨?_, rfl⟩
  rw [sendSolanaTransfer_balance_case L payerPk toAddress amount decimals dest pre hres hlt]

/-- Claim C9 witness: on `sampleLedger 20000000` with a requested "2" (2000000
minor units against a 1000000 balance) the executor reports the
insufficient-balance error carrying the actual balance string "1" and the
requested amount "2". -/
theorem c9_error_payloads_witness :
    (sendSolanaTransfer (sampleLedger 20000000) "payer" "rcpt" "2" 6).2 =
      Except.error (TransferError.insufficientBalance "1" "2") :=
  (((c9_error_payloads (sampleLedger 20000000) "payer" "rcpt" "2" 6).1
    ("ata:" ++ SOLANA_USDC_MINT ++ ":rcpt")
    [Instruction.createAssociatedTokenAccount "payer" ("ata:" ++ SOLANA_USDC_MINT ++ ":rcpt")
      "rcpt" SOLANA_USDC_MINT]
    (by decide) (by decide)).1)

/-- Claim C9 counterexample: two runs that differ only in the sender's
actual native balance (0 vs 9999999 lamports, both short of the required
10000000) produce the identical `insufficientFee` error value, and the fee
error's fixed message contains no numeral at all — so the insufficient-fee
error carries neither the actual nor the required amount, refuting the claim
that both executor errors carry actual-vs-required amounts. -/
theorem c9_fee_error_no_amounts :
    (sendSolanaTransfer (sampleLedger 0) "payer" "rcpt" "0.1" 6).2 =
      Except.error TransferError.insufficientFee ∧
    (sendSolanaTransfer (sampleLedger 9999999) "payer" "rcpt" "0.1" 6).2 =
      Except.error TransferError.insufficientFee ∧
    (sampleLedger 0).nativeBalance ≠ (sampleLedger 9999999).nativeBalance ∧
    (TransferError.insufficientFee.message.data.all fun c => !c.isDigit) = true := by
  refine ⟨by decide, by decide, by decide, by decide⟩

/-! ## Encoder lemmas and claim C6 -/

theorem hexDigit_ascii (n : Nat) : (hexDigit n).toNat < 128 := by
  by_cases h : n < 16
  · interval_cases n <;> decide
  · rw [hexDigit, List.getD_eq_default]
    · decide
    · simpa using not_lt.mp h

theorem jsonEscapeChar_ascii {c : Char} (hc : c.toNat < 128) :
    ∀ d ∈ jsonEscapeChar c, d.toNat < 128 := by
  intro d hd
  unfold jsonEscapeChar at hd
  split_ifs at hd <;>
    simp only [List.mem_cons, List.not_mem_nil, or_false] at hd
  · rcases hd with rfl | rfl <;> decide
  · rcases hd with rfl | rfl <;> decide
  · rcases hd with rfl | rfl <;> decide
  · rcases hd with rfl | rfl <;> decide
  · rcases hd with rfl | rfl <;> decide
  · rcases hd with rfl | rfl <;> decide
  · rcases hd with rfl | rfl <;> decide
  · rcases hd with rfl | rfl | rfl | rfl | rfl | rfl
    · decide
    · decide
    · decide
    · decide
    · exact hexDigit_ascii _
    · exact hexDigit_ascii _
  · subst hd
    exact hc

theorem jsonQuote_ascii {l : List Char} (hl : ∀ c ∈ l, c.toNat < 128) :
    ∀ c ∈ jsonQuote l, c.toNat < 128 := by
  intro c hc
  unfold jsonQuote at hc
  rcases List.mem_cons.mp hc with rfl | hc
  · decide
  · rcases List.mem_append.mp hc with hc | hc
    · obtain ⟨as, has, hmem⟩ := List.mem_join.mp hc
      obtain ⟨x, hx, rfl⟩ := List.mem_map.mp has
      exact jsonEscapeChar_ascii (hl x hx) c hmem
    · simp only [List.mem_cons, List.not_mem_nil, or_false] at hc
      subst hc
      decide

theorem xPaymentJsonChars_ascii (xp : XPaymentData) (h1 : xp.x402Version = 1)
    (hs : ∀ c ∈ xp.scheme.data, c.toNat < 128)
    (hn : ∀ c ∈ xp.network.data, c.toNat < 128)
    (ho : ∀ c ∈ xp.orderId.data, c.toNat < 128)
    (ha : ∀ c ∈ xp.amount.data, c.toNat < 128)
    (ht : ∀ c ∈ xp.txHash.data, c.toNat < 128) :
    ∀ c ∈ xPaymentJsonChars xp, c.toNat < 128 := by
  intro c hc
  unfold xPaymentJsonChars at hc
  rw [h1] at hc
  simp only [List.mem_append, or_assoc] at hc
  rcases hc with hc | hc | hc | hc | hc | hc | hc | hc | hc | hc | hc
  · exact (by decide :
      ∀ x ∈ ("\x7b\"x402Version\":" ++ Nat.repr 1 ++ ",\"scheme\":").data, x.toNat < 128) c hc
  · exact jsonQuote_ascii hs c hc
  · exact (by decide : ∀ x ∈ (",\"network\":").data, x.toNat < 128) c hc
  · exact jsonQuote_ascii hn c hc
  · exact (by decide : ∀ x ∈ (",\"orderId\":").data, x.toNat < 128) c hc
  · exact jsonQuote_ascii ho c hc
  · exact (by decide : ∀ x ∈ (",\"payload\":\x7b\"amount\":").data, x.toNat < 128) c hc
  · exact jsonQuote_ascii ha c hc
  · exact (by decide : ∀ x ∈ (",\"txHash\":").data, x.toNat < 128) c hc
  · exact jsonQuote_ascii ht c hc
  · exact (by decide : ∀ x ∈ ("\x7d\x7d").data, x.toNat < 128) c hc

theorem utf8Char_ascii_eq {c : Char} (hc : c.toNat < 128) : utf8Char c = [c.toNat] := by
  unfold utf8Char
  rw [if_pos hc]

theorem utf8Bytes_ascii : ∀ {l : List Char}, (∀ c ∈ l, c.toNat < 128) →
    utf8Bytes l = l.map Char.toNat := by
  intro l
  induction l with
  | nil => intro _; rfl
  | cons c rest ih =>
    intro hl
    have hc := hl c (List.mem_cons_self c rest)
    have hrest : ∀ x ∈ rest, x.toNat < 128 := fun x hx => hl x (List.mem_cons_of_mem c hx)
    have h1 : utf8Bytes (c :: rest) = utf8Char c ++ utf8Bytes rest := rfl
    rw [h1, utf8Char_ascii_eq hc, ih hrest, List.map_cons]
    rfl

theorem btoaChars_ascii {l : List Char} (hl : ∀ c ∈ l, c.toNat < 128) :
    btoaChars l = some (base64Encode (utf8Bytes l)) := by
  unfold btoaChars
  rw [utf8Bytes_ascii hl, if_pos]
  rw [List.all_eq_true]
  intro c hc
  simpa using lt_trans (hl c hc) (by decide : (128 : Nat) < 256)

/-- Claim C6 (amended): for envelopes whose string fields are ASCII (as all
values produced by this flow are), the X-PAYMENT header is exactly the
base64 of the UTF-8 JSON serialization of `{x402Version: 1, scheme, network,
orderId, payload: {amount, txHash}}`, and identical inputs always produce an
identical header; for non-ASCII inputs `btoa` diverges from the UTF-8
reading (see the counterexample). -/
theorem c6_encoder_deterministic (xp : XPaymentData) (h1 : xp.x402Version = 1)
    (hs : ∀ c ∈ xp.scheme.data, c.toNat < 128)
    (hn : ∀ c ∈ xp.network.data, c.toNat < 128)
    (ho : ∀ c ∈ xp.orderId.data, c.toNat < 128)
    (ha : ∀ c ∈ xp.amount.data, c.toNat < 128)
    (ht : ∀ c ∈ xp.txHash.data, c.toNat < 128) :
    encodeXPayment xp = some (String.mk (base64Encode (utf8Bytes (xPaymentJsonChars xp)))) ∧
    ∀ xp2 : XPaymentData, xp2 = xp → encodeXPayment xp2 = encodeXPayment xp := by
  constructor
  · unfold encodeXPayment
    rw [btoaChars_ascii (xPaymentJsonChars_ascii xp h1 hs hn ho ha ht)]
    rfl
  · intro xp2 h
    rw [h]

/-- Claim C6 witness: the theorem applied to the all-ASCII envelope
`xpAscii` produces its header as the base64 of the UTF-8 JSON. -/
theorem c6_encoder_deterministic_witness :
    encodeXPayment xpAscii =
      some (String.mk (base64Encode (utf8Bytes (xPaymentJsonChars xpAscii)))) :=
  (c6_encoder_deterministic xpAscii (by decide) (by decide) (by decide) (by decide)
    (by decide) (by decide)).1

/-- Claim C6 counterexample: for an orderId containing the character 'é'
(code point 233: within `btoa`'s Latin-1 range but two bytes in UTF-8) the
header produced by `btoa(JSON.stringify(...))` is NOT the base64 of the
UTF-8 JSON serialization, refuting the claim's "for every orderId" reading;
`btoa` encodes one byte per UTF-16 code unit, not UTF-8. -/
theorem c6_encoder_counterexample :
    encodeXPayment xpLatin ≠
      some (String.mk (base64Encode (utf8Bytes (xPaymentJsonChars xpLatin)))) := by
  decide

/-! ## Session machine: claims C1 and C8 -/

/-- Claim C1 (code bug): in the end-to-end flow with a 6-decimal option and
selected amount "0.2", the executor's transfer instruction moves 200000
minor units, but the X-PAYMENT envelope sent on confirmation carries
`payload.amount = "0"`: `confirmPayment` computes the amount from
`actualTransferAmount || selectedAmount` read through the render closure,
whose pre-click values are both the empty string, instead of from the amount
actually transferred — contradicting the claimed (and intended) equality of
the encoded and transferred amounts. -/
theorem c1_stale_amount_divergence :
    (handleSelectAmount (sampleLedger 20000000) gatewayOk "payer" sessionC1 "0.2").transfer =
      some { signature := "sig",
             instructions := [Instruction.createAssociatedTokenAccount "payer"
                 ("ata:" ++ SOLANA_USDC_MINT ++ ":rcpt") "rcpt" SOLANA_USDC_MINT,
               Instruction.transfer ("ata:" ++ SOLANA_USDC_MINT ++ ":payer")
                 ("ata:" ++ SOLANA_USDC_MINT ++ ":rcpt") "payer" 200000] } ∧
    (handleSelectAmount (sampleLedger 20000000) gatewayOk "payer" sessionC1 "0.2").xpayment =
      some { x402Version := 1, scheme := "exact", network := "devnet",
             orderId := "order-1", amount := "0", txHash := "sig" } ∧
    minorUnits "0.2" 6 = 200000 := by
  refine ⟨by decide, by decide, by decide⟩

/-- Claim C8 (amended): a selection event dispatched while the step is
neither `select_network` nor `select_amount` is a no-op (the buttons are
disabled); an amount-selection event with no selected option, or no selected
token, is a no-op; a network-selection event whose index is NaN or
out-of-range is a no-op.  (A click on a network-option button while in
`select_amount`, however, is routed to the amount handler and is not a
no-op — see the counterexample.) -/
theorem c8_selection_noops (L : Ledger) (g : GatewayResp) (payerPk : String)
    (s : Session) (v : String) :
    (s.step ≠ Step.select_network → s.step ≠ Step.select_amount →
      clickOption L g payerPk s v = { session := s, transfer := none, xpayment := none }) ∧
    (s.selectedPaymentOption = none →
      handleSelectAmount L g payerPk s v = { session := s, transfer := none, xpayment := none }) ∧
    (s.selectedToken = "" →
      handleSelectAmount L g payerPk s v = { session := s, transfer := none, xpayment := none }) ∧
    (jsArrayGet s.paymentOptions v = none → handleSelectNetwork s v = s) := by
  refine ⟨?_, ?_, ?_, ?_⟩
  · intro h1 h2
    unfold clickOption
    rw [if_neg h1, if_neg h2]
  · intro h
    unfold handleSelectAmount
    rw [h]
  · intro h
    rcases hopt : s.selectedPaymentOption with - | o
    · unfold handleSelectAmount
      rw [hopt]
    · unfold handleSelectAmount
      rw [hopt]
      simp only [if_pos h]
  · intro h
    unfold handleSelectNetwork
    by_cases he : s.paymentOptions.isEmpty
    · rw [if_pos he]
    · rw [if_neg he, h]

/-- Claim C8 witness: a click while the step is `pending_confirm` (buttons
disabled) leaves the session unchanged. -/
theorem c8_selection_noops_witness :
    clickOption (sampleLedger 0) gatewayOk "payer"
      { sessionC1 with step := Step.pending_confirm } "0" =
      { session := { sessionC1 with step := Step.pending_confirm },
        transfer := none, xpayment := none } :=
  (c8_selection_noops (sampleLedger 0) gatewayOk "payer"
    { sessionC1 with step := Step.pending_confirm } "0").1 (by decide) (by decide)

/-- Claim C8 counterexample: with two payment options and the session in
`select_amount`, clicking the network-option button of index 1 (a
network-selection event) is dispatched to `handleSelectAmount("1")` and
mutates the session (it starts a transfer of the amount string "1"), so a
network-selection event received in `select_amount` is NOT a no-op. -/
theorem c8_network_event_not_noop :
    sessionC8.step = Step.select_amount ∧
    (clickOption (sampleLedger 20000000) gatewayOk "payer" sessionC8 "1").session ≠ sessionC8 := by
  refine ⟨by decide, by decide⟩
